import Mathlib

/-!
A shallow embedding of the core of the move-bridge repository
(packages/bridge-core): the config model and its validation, the chain
adapter retry decorator, the relay orchestrator (dedup loop, business-rule
verification, linear-backoff submission retry) and the message
authenticator (signing, nonce-watermark verification, expiry policy).

Remote RPC interactions are modelled as oracles indexed by the attempt
number: an oracle of type Nat → Except Error A gives the outcome of the
i-th attempt of one remote operation.  Sleeping is modelled by recording
the requested delay (in seconds) in a list, and the number of attempts
actually performed is returned alongside the result.
-/

deriving instance DecidableEq for Except

namespace MoveBridge

/-- Byte vectors (Rust Vec of u8) are modelled as lists of naturals. -/
abbrev Bytes := List Nat

/-- types.rs: CrossChainMessage with plain string-keyed chain fields. -/
structure CrossChainMessage where
  nonce : Nat
  source_chain : String
  target_chain : String
  message_type : String
  payload : Bytes
deriving DecidableEq, Repr

/-- types.rs: SignedMessage bundling a message, signature bytes and a unix
timestamp. -/
structure SignedMessage where
  message : CrossChainMessage
  signature : Bytes
  timestamp : Nat
deriving DecidableEq, Repr

/-- types.rs: MessageStatus. -/
inductive MessageStatus where
  | Pending
  | Processed
  | Failed
deriving DecidableEq, Repr

/-- lib.rs: the bridge error enum (thiserror). -/
inductive Error where
  | Config (msg : String)
  | Chain (msg : String)
  | Network (msg : String)
  | Serialization (msg : String)
deriving DecidableEq, Repr

/-- The Display rendering of lib.rs's Error, from its thiserror
attributes; relayer/mod.rs interpolates errors through it. -/
def Error.display : Error → String
  | .Config m => "Config error: " ++ m
  | .Chain m => "Chain error: " ++ m
  | .Network m => "Network error: " ++ m
  | .Serialization m => "Serialization error: " ++ m

/-- config/mod.rs: EventFilter. -/
structure EventFilter where
  name : String
  handler : String
deriving DecidableEq, Repr

/-- config/mod.rs: ChainConfig. -/
structure ChainConfig where
  id : String
  adapter_type : String
  name : String
  rpc_url : String
  bridge_address : String
  event_filters : List EventFilter
deriving DecidableEq, Repr

/-- config/mod.rs: AssetConfig; the HashMap of mappings is modelled as an
association list (iteration order is irrelevant to every use). -/
structure AssetConfig where
  name : String
  native_chain : String
  type_ : String
  decimals : Nat
  mappings : List (String × String)
deriving DecidableEq, Repr

/-- config/mod.rs: ValidatorConfig. -/
structure ValidatorConfig where
  address : String
  public_key : String
  weight : Nat
  chains : List String
deriving DecidableEq, Repr

/-- config/mod.rs: RelayerConfig. -/
structure RelayerConfig where
  poll_interval : Nat
  max_retries : Nat
  retry_delay : Nat
deriving DecidableEq, Repr

/-- config/mod.rs: Config. -/
structure Config where
  chains : List ChainConfig
  assets : List AssetConfig
  validators : List ValidatorConfig
  relayer : RelayerConfig
deriving DecidableEq, Repr

/-- HashMap::contains_key on the association-list model. -/
def containsKey (m : List (String × String)) (k : String) : Bool :=
  m.any (fun p => p.1 == k)

/-- Whether a character is an ASCII hex digit, as the hex crate accepts. -/
def isHexDigitChar (c : Char) : Bool :=
  (48 ≤ c.toNat && c.toNat ≤ 57) ||
  (97 ≤ c.toNat && c.toNat ≤ 102) ||
  (65 ≤ c.toNat && c.toNat ≤ 70)

/-- Whether hex::decode(s) succeeds: every character is a hex digit and
the length is even. -/
def hexDecodable (s : String) : Bool :=
  s.data.all isHexDigitChar && s.data.length % 2 == 0

/-- Fail-fast iteration: the first error returned by f over the list, in
order, models a Rust for-loop whose body early-returns on error. -/
def firstError : List α → (α → Except Error Unit) → Except Error Unit
  | [], _ => Except.ok ()
  | a :: rest, f =>
    match f a with
    | .error e => Except.error e
    | .ok _ => firstError rest f

/-- config/mod.rs: the chain_ids list Config::validate binds at its top
and checks references against. -/
def Config.chain_ids (c : Config) : List String :=
  c.chains.map (fun ch => ch.id)

/-- config/mod.rs: Config::validate, translated check for check in source
order with fail-fast semantics. -/
def Config.validate (c : Config) : Except Error Unit :=
  match firstError c.chains (fun chain =>
      if chain.adapter_type == "sui" || chain.adapter_type == "rooch" then Except.ok ()
      else Except.error (Error.Config ("Invalid adapter type: " ++ chain.adapter_type))) with
  | .error e => Except.error e
  | .ok _ =>
  match firstError c.assets (fun asset =>
      if !(c.chain_ids.contains asset.native_chain) then
        Except.error (Error.Config ("Invalid chain ID in asset config: " ++ asset.native_chain))
      else
        firstError asset.mappings (fun kv =>
          if !(c.chain_ids.contains kv.1) then
            Except.error (Error.Config ("Invalid chain ID in asset mapping: " ++ kv.1))
          else Except.ok ())) with
  | .error e => Except.error e
  | .ok _ =>
  match firstError c.validators (fun validator =>
      if !(hexDecodable validator.public_key) then
        Except.error (Error.Config ("Invalid public key: " ++ validator.public_key))
      else
        firstError validator.chains (fun chain =>
          if !(c.chain_ids.contains chain) then
            Except.error (Error.Config ("Invalid chain ID in validator config: " ++ chain))
          else Except.ok ())) with
  | .error e => Except.error e
  | .ok _ =>
  if c.relayer.poll_interval == 0 then
    Except.error (Error.Config "Relayer poll interval must be greater than 0")
  else if c.relayer.max_retries == 0 then
    Except.error (Error.Config "Relayer max retries must be greater than 0")
  else Except.ok ()

/-- config/mod.rs: Config::get_chain_config. -/
def Config.get_chain_config (c : Config) (chain_id : String) : Option ChainConfig :=
  c.chains.find? (fun ch => ch.id == chain_id)

/-- config/mod.rs: Config::get_asset_config. -/
def Config.get_asset_config (c : Config) (asset_name : String) : Option AssetConfig :=
  c.assets.find? (fun a => a.name == asset_name)

/-- config/mod.rs: Config::get_validators_for_chain. -/
def Config.get_validators_for_chain (c : Config) (chain_id : String) : List ValidatorConfig :=
  c.validators.filter (fun v => v.chains.contains chain_id)

/-- chain_adapter/rooch.rs: const MAX_RETRIES. -/
def MAX_RETRIES : Nat := 3

/-- chain_adapter/rooch.rs: const RETRY_DELAY. -/
def RETRY_DELAY : Nat := 2

/-- chain_adapter/rooch.rs: the loop body of RoochAdapter::retry_with_backoff.
retries is the Rust loop's counter before the current attempt; gas is the
number of further retries the budget still allows, kept equal to
MAX_RETRIES - retries - 1 so that the Rust guard retries + 1 >= MAX_RETRIES
is exactly gas = 0 (the two gas cases differ only there; they are split so
the recursion is structural).  Returns the result, the number of attempts
performed counted from attempt 0, and the successive sleep durations
RETRY_DELAY ^ (retries + 1) requested after each non-final failure. -/
def retryAux (op : Nat → Except ε α) (retryDelay : Nat) :
    Nat → Nat → Except ε α × Nat × List Nat
  | retries, 0 =>
    match op retries with
    | .ok r => (Except.ok r, retries + 1, [])
    | .error e => (Except.error e, retries + 1, [])
  | retries, gas + 1 =>
    match op retries with
    | .ok r => (Except.ok r, retries + 1, [])
    | .error _ =>
      let rest := retryAux op retryDelay (retries + 1) gas
      (rest.1, rest.2.1, retryDelay ^ (retries + 1) :: rest.2.2)

/-- chain_adapter/rooch.rs: RoochAdapter::retry_with_backoff applied to a
remote operation, starting with retries = 0 and a budget of
MAX_RETRIES - 1 further retries. -/
def RoochAdapter.retry_with_backoff (op : Nat → Except ε α) : Except ε α × Nat × List Nat :=
  retryAux op RETRY_DELAY 0 (MAX_RETRIES - 1)

/-- chain_adapter/rooch.rs: RoochAdapter::listen_events wraps its remote
RPC interaction (modelled as an oracle) in retry_with_backoff. -/
def RoochAdapter.listen_events (remote : Nat → Except Error (List SignedMessage)) :
    Except Error (List SignedMessage) × Nat × List Nat :=
  RoochAdapter.retry_with_backoff remote

/-- chain_adapter/rooch.rs: RoochAdapter::submit_message wraps its remote
RPC interaction in retry_with_backoff. -/
def RoochAdapter.submit_message (remote : Nat → Except Error Unit) :
    Except Error Unit × Nat × List Nat :=
  RoochAdapter.retry_with_backoff remote

/-- chain_adapter/rooch.rs: RoochAdapter::verify_message wraps its remote
RPC interaction in retry_with_backoff. -/
def RoochAdapter.verify_message (remote : Nat → Except Error MessageStatus) :
    Except Error MessageStatus × Nat × List Nat :=
  RoochAdapter.retry_with_backoff remote

/-- chain_adapter/sui.rs: SuiAdapter::listen_events performs its remote
query exactly once, with no retry wrapper, no sleeps. -/
def SuiAdapter.listen_events (remote : Nat → Except Error (List SignedMessage)) :
    Except Error (List SignedMessage) × Nat × List Nat :=
  (remote 0, 1, [])

/-- chain_adapter/sui.rs: SuiAdapter::submit_message delegates to
send_message, a single remote transaction execution with no retry
wrapper. -/
def SuiAdapter.submit_message (remote : Nat → Except Error Unit) :
    Except Error Unit × Nat × List Nat :=
  (remote 0, 1, [])

/-- chain_adapter/sui.rs: SuiAdapter::verify_message delegates to
get_message_status, a single remote read with no retry wrapper. -/
def SuiAdapter.verify_message (remote : Nat → Except Error MessageStatus) :
    Except Error MessageStatus × Nat × List Nat :=
  (remote 0, 1, [])

/-- The hex digit character for a value below 16, lowercase as the hex
crate produces. -/
def hexDigitChar (n : Nat) : Char :=
  if n < 10 then Char.ofNat (48 + n) else Char.ofNat (87 + n)

/-- One byte rendered as two lowercase hex characters. -/
def byteToHex (b : Nat) : List Char :=
  [hexDigitChar (b / 16), hexDigitChar (b % 16)]

/-- hex::encode on a byte vector. -/
def hexEncode (bs : Bytes) : String :=
  String.mk (bs.map byteToHex).flatten

/-- relayer/mod.rs: Relayer::verify_message, the business-rule check run
before every dispatch, translated condition for condition in source
order.  current_time stands for SystemTime::now as unix seconds. -/
def Relayer.verify_message (c : Config) (current_time : Nat) (message : SignedMessage) :
    Except Error Bool :=
  if message.timestamp > current_time then
    Except.error (Error.Chain "Message timestamp is in the future")
  else if current_time - message.timestamp > 3600 then
    Except.error (Error.Chain "Message has expired (older than 1 hour)")
  else if !(c.chains.any (fun ch => ch.id == message.message.source_chain)) then
    Except.error (Error.Chain ("Invalid source chain: " ++ message.message.source_chain))
  else if !(c.chains.any (fun ch => ch.id == message.message.target_chain)) then
    Except.error (Error.Chain ("Invalid target chain: " ++ message.message.target_chain))
  else if message.message.message_type == "transfer" &&
      !(c.assets.any (fun asset =>
        asset.native_chain == message.message.source_chain &&
        containsKey asset.mappings message.message.target_chain)) then
    Except.error (Error.Chain ("Invalid asset transfer mapping from " ++
      message.message.source_chain ++ " to " ++ message.message.target_chain))
  else Except.ok true

/-- relayer/mod.rs: the submission retry loop inside Relayer::relay_message.
rc is the Rust retry_count before the current attempt; gas is kept equal
to max_retries - rc - 1 so the Rust guard retry_count >= max_retries after
the increment is exactly gas = 0 (the two gas cases differ only there;
they are split so the recursion is structural).  Sleeps of
base_delay * retry_count seconds after non-final failures are recorded;
the attempt count is returned. -/
def Relayer.submitAux (submit : Nat → Except Error Unit) (base : Nat) :
    Nat → Nat → Except Error Unit × Nat × List Nat
  | rc, 0 =>
    match submit rc with
    | .ok _ => (Except.ok (), rc + 1, [])
    | .error e =>
      (Except.error (Error.Chain ("Max retries reached: " ++ e.display)), rc + 1, [])
  | rc, gas + 1 =>
    match submit rc with
    | .ok _ => (Except.ok (), rc + 1, [])
    | .error _ =>
      let rest := Relayer.submitAux submit base (rc + 1) gas
      (rest.1, rest.2.1, base * (rc + 1) :: rest.2.2)

/-- relayer/mod.rs: Relayer::relay_message.  adapters models the key set of
the chain_adapters map; the target adapter's submit_message on the resolved
target config and message is the oracle submit, indexed by attempt. -/
def Relayer.relay_message (c : Config) (adapters : List String) (current_time : Nat)
    (submit : Nat → Except Error Unit) (message : SignedMessage) :
    Except Error Unit × Nat × List Nat :=
  let target_chain_id := message.message.target_chain
  if !(adapters.contains target_chain_id) then
    (Except.error (Error.Chain ("Target chain adapter not found: " ++ target_chain_id)), 0, [])
  else
    match c.get_chain_config target_chain_id with
    | none => (Except.error (Error.Config ("Chain config not found: " ++ target_chain_id)), 0, [])
    | some _ =>
      match Relayer.verify_message c current_time message with
      | .error e => (Except.error e, 0, [])
      | .ok _ => Relayer.submitAux submit c.relayer.retry_delay 0 (c.relayer.max_retries - 1)

/-- relayer/mod.rs: the per-message body of the polling loop in
Relayer::start.  State is the dedup set (processed_messages, newest first)
paired with the running count of submit_message calls; relayFn yields
relay_message's outcome and its number of submit calls. -/
def Relayer.processOne (relayFn : SignedMessage → Except Error Unit × Nat)
    (st : List String × Nat) (message : SignedMessage) : List String × Nat :=
  let message_id := hexEncode message.signature
  if st.1.contains message_id then st
  else
    let r := relayFn message
    match r.1 with
    | .error _ => (st.1, st.2 + r.2)
    | .ok _ => (message_id :: st.1, st.2 + r.2)

/-- relayer/mod.rs: one cycle of Relayer::start over the messages one
chain's listen_events returned, threading the dedup set and the submit
call count. -/
def Relayer.runCycle (relayFn : SignedMessage → Except Error Unit × Nat)
    (messages : List SignedMessage) (st : List String × Nat) : List String × Nat :=
  messages.foldl (Relayer.processOne relayFn) st

/-- Modelled from the spec: the typed chain enumeration the authenticator
references (verify/mod.rs imports types::ChainType, which is absent from
the repository sources; spec section 9 records this richer message model,
and the authenticator's default policy names the Sui and Rooch variants). -/
inductive ChainType where
  | Sui
  | Rooch
deriving DecidableEq, Repr

/-- Modelled from the spec: the typed message kind referenced by the
authenticator's message model (absent from the repository sources). -/
inductive MessageType where
  | AssetTransfer
deriving DecidableEq, Repr

/-- Modelled from the spec: the structured error kind the authenticator
uses (verify/mod.rs imports BridgeError, absent from the repository
sources; only its ValidationError and SerializationError variants are
used there). -/
inductive BridgeError where
  | ValidationError (msg : String)
  | SerializationError (msg : String)
deriving DecidableEq, Repr

namespace Verify

/-- Modelled from the spec: the richer CrossChainMessage the authenticator
signs and verifies (typed chains and message kind, sender key bytes,
opaque payload); absent from the repository sources, reconstructed from
verify/mod.rs's field accesses and spec sections 4.4 and 9. -/
structure CrossChainMessage where
  nonce : Nat
  source_chain : ChainType
  target_chain : ChainType
  message_type : MessageType
  sender : Bytes
  payload : Bytes
deriving DecidableEq, Repr

/-- Symbolic model of the signature bytes verify/mod.rs produces and
parses: serde_json canonical encoding followed by Blake2b-512 is treated
as an ideal (collision-free) hash, so a well-formed ed25519 signature is
determined by the signing key (an abstract key identifier standing for
the keypair) and the hashed message; malformed stands for byte strings
Signature::from_bytes rejects. -/
inductive Sig where
  | valid (key : Nat) (msg : CrossChainMessage)
  | malformed
deriving DecidableEq, Repr

/-- Modelled from the spec: the authenticator-side SignedMessage bundling
message, signature and unix signing time (absent from the repository
sources; spec section 3). -/
structure SignedMessage where
  message : CrossChainMessage
  signature : Sig
  timestamp : Nat
deriving DecidableEq, Repr

/-- Modelled from the spec: SignedMessage::new bundles the message and
signature with the current time (spec section 4.4); the clock is passed
explicitly. -/
def SignedMessage.new (message : CrossChainMessage) (signature : Sig) (now : Nat) :
    SignedMessage :=
  { message := message, signature := signature, timestamp := now }

end Verify

/-- verify/mod.rs: const MAX_MESSAGE_AGE. -/
def MAX_MESSAGE_AGE : Nat := 3600

/-- verify/mod.rs: const MIN_NONCE. -/
def MIN_NONCE : Nat := 1

/-- verify/mod.rs: VerifierConfig. -/
structure VerifierConfig where
  max_message_age : Nat
  allowed_source_chains : List ChainType
  allowed_target_chains : List ChainType
deriving DecidableEq, Repr

/-- verify/mod.rs: VerifierConfig::default. -/
def VerifierConfig.default : VerifierConfig :=
  { max_message_age := MAX_MESSAGE_AGE,
    allowed_source_chains := [ChainType.Sui, ChainType.Rooch],
    allowed_target_chains := [ChainType.Sui, ChainType.Rooch] }

/-- verify/mod.rs: MessageVerifier.  The ed25519 keypair is modelled by an
abstract key identifier keyId shared by secret and public half. -/
structure MessageVerifier where
  keyId : Nat
  config : VerifierConfig
  last_processed_nonce : Nat
deriving DecidableEq, Repr

/-- Two to the sixty-fourth power, the modulus of Rust u64 arithmetic. -/
def U64_MOD : Nat := 18446744073709551616

/-- Wrapping u64 subtraction (release-profile semantics of the unchecked
current_time - timestamp in MessageVerifier::verify_message), valid for
arguments below 2 to the 64th. -/
def wsub64 (a b : Nat) : Nat :=
  (a + U64_MOD - b) % U64_MOD

/-- verify/mod.rs: MessageVerifier::validate_message_properties. -/
def MessageVerifier.validate_message_properties (v : MessageVerifier)
    (message : Verify.CrossChainMessage) : Except BridgeError Unit :=
  if ¬ (message.source_chain ∈ v.config.allowed_source_chains) then
    Except.error (BridgeError.ValidationError "Invalid source chain")
  else if ¬ (message.target_chain ∈ v.config.allowed_target_chains) then
    Except.error (BridgeError.ValidationError "Invalid target chain")
  else if message.nonce ≤ v.last_processed_nonce ∨ message.nonce < MIN_NONCE then
    Except.error (BridgeError.ValidationError "Invalid nonce")
  else Except.ok ()

/-- verify/mod.rs: MessageVerifier::sign_message.  Serialization of these
messages cannot fail, hashing is the ideal hash of the symbolic model, and
signing the hash yields Sig.valid of the verifier's key and the message;
the Rust method borrows the verifier immutably, so no updated verifier is
returned and the watermark cannot change.  now stands for the signing
time SignedMessage::new records. -/
def MessageVerifier.sign_message (v : MessageVerifier)
    (message : Verify.CrossChainMessage) (now : Nat) :
    Except BridgeError Verify.SignedMessage :=
  match v.validate_message_properties message with
  | .error e => Except.error e
  | .ok _ =>
    Except.ok (Verify.SignedMessage.new message (Verify.Sig.valid v.keyId message) now)

/-- verify/mod.rs: MessageVerifier::verify_message, returning the result
together with the (possibly watermark-advanced) verifier.  current_time
stands for SystemTime::now as unix seconds; the age test uses wrapping
u64 subtraction as the unchecked Rust subtraction does. -/
def MessageVerifier.verify_message (v : MessageVerifier) (current_time : Nat)
    (signed_message : Verify.SignedMessage) :
    Except BridgeError Bool × MessageVerifier :=
  if wsub64 current_time signed_message.timestamp > v.config.max_message_age then
    (Except.ok false, v)
  else
    match v.validate_message_properties signed_message.message with
    | .error e => (Except.error e, v)
    | .ok _ =>
      match signed_message.signature with
      | Verify.Sig.malformed =>
        (Except.error (BridgeError.ValidationError "Invalid signature"), v)
      | Verify.Sig.valid key hashed =>
        if key = v.keyId ∧ hashed = signed_message.message then
          (Except.ok true, { v with last_processed_nonce := signed_message.message.nonce })
        else
          (Except.ok false, v)

/-! ## Concrete instances used by counterexamples and witnesses -/

/-- A remote operation that fails on its first attempt and succeeds on
every later one. -/
def opFail1 : Nat → Except Error Unit :=
  fun i => if i = 0 then Except.error (Error.Chain "rpc down") else Except.ok ()

/-- A remote operation that fails on every attempt. -/
def opFailAll : Nat → Except Error Unit :=
  fun _ => Except.error (Error.Chain "rpc down")

/-- A remote operation that fails on the first two attempts and succeeds
on the third. -/
def opFail2 : Nat → Except Error Unit :=
  fun i => if i < 2 then Except.error (Error.Chain "rpc down") else Except.ok ()

/-- A remote operation that always succeeds. -/
def opOk : Nat → Except Error Unit := fun _ => Except.ok ()

/-- The constant error function naming each attempt's failure. -/
def errW : Nat → Error := fun _ => Error.Chain "rpc down"

/-- A two-chain configuration with one transfer mapping, used to drive the
relayer concretely. -/
def cfgW : Config :=
  { chains := [
      { id := "sui-1", adapter_type := "sui", name := "s", rpc_url := "u",
        bridge_address := "b", event_filters := [] },
      { id := "rooch-1", adapter_type := "rooch", name := "t", rpc_url := "u",
        bridge_address := "b", event_filters := [] }],
    assets := [
      { name := "coin", native_chain := "sui-1", type_ := "ty", decimals := 9,
        mappings := [("rooch-1", "x")] }],
    validators := [],
    relayer := { poll_interval := 5, max_retries := 3, retry_delay := 5 } }

/-- A transfer message from sui-1 to rooch-1 with signature byte 0xab. -/
def smW : SignedMessage :=
  { message := { nonce := 1, source_chain := "sui-1", target_chain := "rooch-1",
                 message_type := "transfer", payload := [1, 2, 3] },
    signature := [171], timestamp := 100 }

/-- A different message carrying the same signature bytes as smW. -/
def smW2 : SignedMessage :=
  { smW with message := { smW.message with payload := [9] } }

/-- relay_message on cfgW at time 100 with an always-succeeding submit
oracle, packaged as the loop body's relay function. -/
def relayW : SignedMessage → Except Error Unit × Nat := fun m =>
  let r := Relayer.relay_message cfgW ["sui-1", "rooch-1"] 100 opOk m
  (r.1, r.2.1)

/-- relay_message on cfgW at time 100 with an always-failing submit
oracle. -/
def relayFailW : SignedMessage → Except Error Unit × Nat := fun m =>
  let r := Relayer.relay_message cfgW ["sui-1", "rooch-1"] 100 opFailAll m
  (r.1, r.2.1)

/-! ## Helper lemmas -/

theorem firstError_eq_ok_iff (l : List α) (f : α → Except Error Unit) :
    firstError l f = Except.ok () ↔ ∀ a ∈ l, f a = Except.ok () := by
  induction l with
  | nil => simp [firstError]
  | cons a rest ih =>
    simp only [firstError]
    cases h : f a with
    | error e =>
      constructor
      · intro hc; cases hc
      · intro hall
        have := hall a (by simp)
        rw [h] at this
        cases this
    | ok u =>
      cases u
      simp only [List.mem_cons]
      constructor
      · intro hc
        intro x hx
        rcases hx with rfl | hx
        · exact h
        · exact (ih.mp hc) x hx
      · intro hall
        exact ih.mpr (fun x hx => hall x (Or.inr hx))

theorem submitAux_attempts_le (submit : Nat → Except Error Unit) (base : Nat) :
    ∀ gas rc, (Relayer.submitAux submit base rc gas).2.1 ≤ rc + gas + 1 := by
  intro gas
  induction gas with
  | zero =>
    intro rc
    cases h : submit rc <;> simp [Relayer.submitAux, h]
  | succ g ih =>
    intro rc
    cases h : submit rc with
    | ok u => cases u; simp [Relayer.submitAux, h]
    | error e =>
      simp only [Relayer.submitAux, h]
      have h2 := ih (rc + 1)
      omega

/-- The list s, s+1, ..., s+n-1. -/
def natSeq (s : Nat) : Nat → List Nat
  | 0 => []
  | n + 1 => s :: natSeq (s + 1) n

theorem submitAux_all_fail (submit : Nat → Except Error Unit) (base : Nat) (err : Nat → Error) :
    ∀ gas rc, (∀ i, rc ≤ i → i ≤ rc + gas → submit i = Except.error (err i)) →
      Relayer.submitAux submit base rc gas =
        (Except.error (Error.Chain ("Max retries reached: " ++ (err (rc + gas)).display)),
         rc + gas + 1, (natSeq (rc + 1) gas).map (fun k => base * k)) := by
  intro gas
  induction gas with
  | zero =>
    intro rc hf
    have h0 : submit rc = Except.error (err rc) := hf rc le_rfl (by omega)
    simp [Relayer.submitAux, h0, natSeq]
  | succ g ih =>
    intro rc hf
    have h0 : submit rc = Except.error (err rc) := hf rc le_rfl (by omega)
    have hrec := ih (rc + 1) (fun i h1 h2 => hf i (by omega) (by omega))
    simp only [Relayer.submitAux, h0, hrec]
    rw [show rc + 1 + g = rc + (g + 1) from by omega]
    simp [natSeq]

theorem submitAux_ok_at (submit : Nat → Except Error Unit) (base : Nat) (err : Nat → Error) :
    ∀ gas rc, (∀ i, rc ≤ i → i < rc + gas → submit i = Except.error (err i)) →
      submit (rc + gas) = Except.ok () →
      Relayer.submitAux submit base rc gas =
        (Except.ok (), rc + gas + 1, (natSeq (rc + 1) gas).map (fun k => base * k)) := by
  intro gas
  induction gas with
  | zero =>
    intro rc hf hok
    simp only [Nat.add_zero] at hok
    simp [Relayer.submitAux, hok, natSeq]
  | succ g ih =>
    intro rc hf hok
    have h0 : submit rc = Except.error (err rc) := hf rc le_rfl (by omega)
    have hok2 : submit (rc + 1 + g) = Except.ok () := by
      rw [show rc + 1 + g = rc + (g + 1) from by omega]; exact hok
    have hrec := ih (rc + 1) (fun i h1 h2 => hf i (by omega) (by omega)) hok2
    simp only [Relayer.submitAux, h0, hrec]
    rw [show rc + 1 + g = rc + (g + 1) from by omega]
    simp [natSeq]

theorem relay_message_submit_phase (c : Config) (adapters : List String) (now : Nat)
    (submit : Nat → Except Error Unit) (m : SignedMessage)
    (hA : adapters.contains m.message.target_chain = true)
    (hC : (c.get_chain_config m.message.target_chain).isSome = true)
    (hV : Relayer.verify_message c now m = Except.ok true) :
    Relayer.relay_message c adapters now submit m =
      Relayer.submitAux submit c.relayer.retry_delay 0 (c.relayer.max_retries - 1) := by
  have hmem : m.message.target_chain ∈ adapters := by simpa using hA
  unfold Relayer.relay_message
  cases hopt : c.get_chain_config m.message.target_chain with
  | none => rw [hopt] at hC; simp at hC
  | some cc => simp [hmem, hopt, hV]

theorem retryAux_attempts_le (op : Nat → Except ε α) (d : Nat) :
    ∀ gas retries, (retryAux op d retries gas).2.1 ≤ retries + gas + 1 := by
  intro gas
  induction gas with
  | zero =>
    intro retries
    cases h : op retries <;> simp [retryAux, h]
  | succ g ih =>
    intro retries
    cases h : op retries with
    | ok r => simp [retryAux, h]
    | error e =>
      simp only [retryAux, h]
      have h2 := ih (retries + 1)
      omega

/-! ## Claim C1 -/

/-- Claim C1 counterexample: the claim asserts that the Sui adapter, like
the Rooch one, wraps every remote operation in the retry decorator (up to
3 attempts, backoff, last failure propagated).  On a remote operation that
fails once and then succeeds, SuiAdapter::submit_message performs a single
attempt and surfaces the failure, while the decorator would retry and
succeed: the Sui adapter is not wrapped in the retry decorator. -/
theorem C1_counterexample :
    SuiAdapter.submit_message opFail1 = (Except.error (Error.Chain "rpc down"), 1, []) ∧
    RoochAdapter.retry_with_backoff opFail1 = (Except.ok (), 2, [2]) ∧
    SuiAdapter.submit_message opFail1 ≠ RoochAdapter.retry_with_backoff opFail1 := by
  refine ⟨rfl, rfl, fun h => ?_⟩
  exact absurd (congrArg (fun t => t.2.1) h) (by decide)

/-- Claim C1 amended: only the Rooch adapter wraps its three remote
operations (listen_events, submit_message, verify_message) in
retry_with_backoff — at most MAX_RETRIES = 3 attempts, a wait of
RETRY_DELAY ^ k = 2 ^ k seconds after failed attempt k when more attempts
remain, and the last observed failure propagated on exhaustion — while
the Sui adapter performs every remote operation exactly once with no
retry and no waiting. -/
theorem C1_amended (remoteL : Nat → Except Error (List SignedMessage))
    (remoteS : Nat → Except Error Unit) (remoteV : Nat → Except Error MessageStatus)
    (err : Nat → Error) :
    (RoochAdapter.listen_events remoteL = RoochAdapter.retry_with_backoff remoteL) ∧
    (RoochAdapter.submit_message remoteS = RoochAdapter.retry_with_backoff remoteS) ∧
    (RoochAdapter.verify_message remoteV = RoochAdapter.retry_with_backoff remoteV) ∧
    (SuiAdapter.listen_events remoteL = (remoteL 0, 1, [])) ∧
    (SuiAdapter.submit_message remoteS = (remoteS 0, 1, [])) ∧
    (SuiAdapter.verify_message remoteV = (remoteV 0, 1, [])) ∧
    ((RoochAdapter.retry_with_backoff remoteS).2.1 ≤ MAX_RETRIES) ∧
    (remoteS 0 = Except.ok () →
      RoochAdapter.retry_with_backoff remoteS = (Except.ok (), 1, [])) ∧
    (remoteS 0 = Except.error (err 0) → remoteS 1 = Except.ok () →
      RoochAdapter.retry_with_backoff remoteS = (Except.ok (), 2, [2])) ∧
    (remoteS 0 = Except.error (err 0) → remoteS 1 = Except.error (err 1) →
      remoteS 2 = Except.ok () →
      RoochAdapter.retry_with_backoff remoteS = (Except.ok (), 3, [2, 4])) ∧
    (remoteS 0 = Except.error (err 0) → remoteS 1 = Except.error (err 1) →
      remoteS 2 = Except.error (err 2) →
      RoochAdapter.retry_with_backoff remoteS = (Except.error (err 2), 3, [2, 4])) := by
  refine ⟨rfl, rfl, rfl, rfl, rfl, rfl, ?_, ?_, ?_, ?_, ?_⟩
  · have h2 := retryAux_attempts_le remoteS RETRY_DELAY (MAX_RETRIES - 1) 0
    simp only [RoochAdapter.retry_with_backoff, MAX_RETRIES] at h2 ⊢
    omega
  · intro h0
    simp [RoochAdapter.retry_with_backoff, MAX_RETRIES, RETRY_DELAY, retryAux, h0]
  · intro h0 h1
    simp [RoochAdapter.retry_with_backoff, MAX_RETRIES, RETRY_DELAY, retryAux, h0, h1]
  · intro h0 h1 h2
    simp [RoochAdapter.retry_with_backoff, MAX_RETRIES, RETRY_DELAY, retryAux, h0, h1, h2]
  · intro h0 h1 h2
    simp [RoochAdapter.retry_with_backoff, MAX_RETRIES, RETRY_DELAY, retryAux, h0, h1, h2]

/-- Claim C1 amended, witnessed at concrete oracles: the failing-once and
always-failing submit oracles exercise the decorator's retry, delay and
last-failure behavior. -/
theorem C1_amended_witness :
    RoochAdapter.retry_with_backoff opFail1 = (Except.ok (), 2, [2]) ∧
    RoochAdapter.retry_with_backoff opFail2 = (Except.ok (), 3, [2, 4]) ∧
    RoochAdapter.retry_with_backoff opFailAll =
      (Except.error (Error.Chain "rpc down"), 3, [2, 4]) := by
  refine ⟨?_, ?_, ?_⟩
  · exact (C1_amended (fun _ => Except.ok []) opFail1 (fun _ => Except.ok MessageStatus.Pending)
      errW).2.2.2.2.2.2.2.2.1 (by rfl) (by rfl)
  · exact (C1_amended (fun _ => Except.ok []) opFail2 (fun _ => Except.ok MessageStatus.Pending)
      errW).2.2.2.2.2.2.2.2.2.1 (by rfl) (by rfl) (by rfl)
  · exact (C1_amended (fun _ => Except.ok []) opFailAll (fun _ => Except.ok MessageStatus.Pending)
      errW).2.2.2.2.2.2.2.2.2.2 (by rfl) (by rfl) (by rfl)

/-! ## Claim C2 -/

/-- A configuration whose two chains share the id dup while every check
Config::validate actually performs passes. -/
def cfgDup : Config :=
  { chains := [
      { id := "dup", adapter_type := "sui", name := "a", rpc_url := "u",
        bridge_address := "b", event_filters := [] },
      { id := "dup", adapter_type := "rooch", name := "c", rpc_url := "u",
        bridge_address := "b", event_filters := [] }],
    assets := [], validators := [],
    relayer := { poll_interval := 1, max_retries := 1, retry_delay := 1 } }

/-- Claim C2 counterexample: cfgDup contains two ChainConfig records with
equal id, yet Config::validate accepts it — validate has no chain-id
uniqueness check, so Config::load does not return a configuration error
on duplicate chain ids. -/
theorem C2_counterexample :
    cfgDup.chains.map (fun ch => ch.id) = ["dup", "dup"] ∧
    cfgDup.validate = Except.ok () := by
  exact ⟨rfl, rfl⟩

theorem prop_ite_ok_iff (p : Prop) [Decidable p] (e : Error) :
    ((if p then Except.ok () else Except.error e) : Except Error Unit) = Except.ok () ↔ p := by
  by_cases h : p <;> simp [h]

theorem prop_ite_err_ok_iff (p : Prop) [Decidable p] (e : Error) (k : Except Error Unit) :
    ((if p then Except.error e else k) : Except Error Unit) = Except.ok () ↔
      (¬ p ∧ k = Except.ok ()) := by
  by_cases h : p <;> simp [h]

theorem validate_eq_ok_parts (c : Config) :
    c.validate = Except.ok () ↔
      (firstError c.chains (fun chain =>
         if chain.adapter_type == "sui" || chain.adapter_type == "rooch" then Except.ok ()
         else Except.error (Error.Config ("Invalid adapter type: " ++ chain.adapter_type)))
           = Except.ok () ∧
       firstError c.assets (fun asset =>
         if !(c.chain_ids.contains asset.native_chain) then
           Except.error (Error.Config ("Invalid chain ID in asset config: " ++ asset.native_chain))
         else
           firstError asset.mappings (fun kv =>
             if !(c.chain_ids.contains kv.1) then
               Except.error (Error.Config ("Invalid chain ID in asset mapping: " ++ kv.1))
             else Except.ok ())) = Except.ok () ∧
       firstError c.validators (fun validator =>
         if !(hexDecodable validator.public_key) then
           Except.error (Error.Config ("Invalid public key: " ++ validator.public_key))
         else
           firstError validator.chains (fun chain =>
             if !(c.chain_ids.contains chain) then
               Except.error (Error.Config ("Invalid chain ID in validator config: " ++ chain))
             else Except.ok ())) = Except.ok () ∧
       c.relayer.poll_interval ≠ 0 ∧ c.relayer.max_retries ≠ 0) := by
  unfold Config.validate
  cases h1 : firstError c.chains (fun chain =>
      if chain.adapter_type == "sui" || chain.adapter_type == "rooch" then Except.ok ()
      else Except.error (Error.Config ("Invalid adapter type: " ++ chain.adapter_type))) with
  | error e => simp
  | ok u =>
    cases u
    cases h2 : firstError c.assets (fun asset =>
        if !(c.chain_ids.contains asset.native_chain) then
          Except.error (Error.Config ("Invalid chain ID in asset config: " ++ asset.native_chain))
        else
          firstError asset.mappings (fun kv =>
            if !(c.chain_ids.contains kv.1) then
              Except.error (Error.Config ("Invalid chain ID in asset mapping: " ++ kv.1))
            else Except.ok ())) with
    | error e => simp
    | ok u =>
      cases u
      cases h3 : firstError c.validators (fun validator =>
          if !(hexDecodable validator.public_key) then
            Except.error (Error.Config ("Invalid public key: " ++ validator.public_key))
          else
            firstError validator.chains (fun chain =>
              if !(c.chain_ids.contains chain) then
                Except.error (Error.Config ("Invalid chain ID in validator config: " ++ chain))
              else Except.ok ())) with
      | error e => simp
      | ok u =>
        cases u
        by_cases hp : c.relayer.poll_interval = 0
        · simp [hp]
        · by_cases hr : c.relayer.max_retries = 0
          · simp [hp, hr]
          · simp [hp, hr]

/-- Claim C2 amended: Config::validate performs no chain-id uniqueness
check.  It accepts a configuration exactly when every chain's
adapter_type is sui or rooch, every asset's native_chain and every
asset-mapping key occur among the (not necessarily distinct) declared
chain ids, every validator's public key is hex-decodable and its chains
occur among the declared chain ids, and poll_interval and max_retries are
nonzero — so a configuration whose chains list contains two records with
equal id loads successfully when these checks pass. -/
theorem C2_amended (c : Config) :
    c.validate = Except.ok () ↔
      ((∀ chain ∈ c.chains, chain.adapter_type = "sui" ∨ chain.adapter_type = "rooch") ∧
       (∀ asset ∈ c.assets,
          c.chain_ids.contains asset.native_chain = true ∧
          ∀ kv ∈ asset.mappings, c.chain_ids.contains kv.1 = true) ∧
       (∀ validator ∈ c.validators,
          hexDecodable validator.public_key = true ∧
          ∀ chain ∈ validator.chains, c.chain_ids.contains chain = true) ∧
       c.relayer.poll_interval ≠ 0 ∧ c.relayer.max_retries ≠ 0) := by
  rw [validate_eq_ok_parts]
  simp only [firstError_eq_ok_iff, prop_ite_ok_iff, prop_ite_err_ok_iff]
  simp

/-! ## Claim C3 -/

/-- Claim C3: once business-rule verification succeeds, relay_message
attempts submit_message at most max_retries times with linear backoff —
after the k-th failed attempt (k < max_retries) it waits retry_delay * k
seconds; a target adapter failing exactly max_retries - 1 times and then
succeeding is called exactly max_retries times and relay_message returns
success, while failing every attempt yields an error carrying the last
observed failure. -/
theorem C3_submit_retry (c : Config) (adapters : List String) (now : Nat)
    (submit : Nat → Except Error Unit) (m : SignedMessage) (err : Nat → Error)
    (hA : adapters.contains m.message.target_chain = true)
    (hC : (c.get_chain_config m.message.target_chain).isSome = true)
    (hV : Relayer.verify_message c now m = Except.ok true)
    (hR : 1 ≤ c.relayer.max_retries) :
    ((Relayer.relay_message c adapters now submit m).2.1 ≤ c.relayer.max_retries) ∧
    ((∀ i, i < c.relayer.max_retries - 1 → submit i = Except.error (err i)) →
      submit (c.relayer.max_retries - 1) = Except.ok () →
      Relayer.relay_message c adapters now submit m =
        (Except.ok (), c.relayer.max_retries,
         (natSeq 1 (c.relayer.max_retries - 1)).map (fun k => c.relayer.retry_delay * k))) ∧
    ((∀ i, i < c.relayer.max_retries → submit i = Except.error (err i)) →
      Relayer.relay_message c adapters now submit m =
        (Except.error (Error.Chain
           ("Max retries reached: " ++ (err (c.relayer.max_retries - 1)).display)),
         c.relayer.max_retries,
         (natSeq 1 (c.relayer.max_retries - 1)).map (fun k => c.relayer.retry_delay * k))) := by
  rw [relay_message_submit_phase c adapters now submit m hA hC hV]
  refine ⟨?_, ?_, ?_⟩
  · have h2 := submitAux_attempts_le submit c.relayer.retry_delay (c.relayer.max_retries - 1) 0
    omega
  · intro hf hok
    have h := submitAux_ok_at submit c.relayer.retry_delay err (c.relayer.max_retries - 1) 0
      (fun i h1 h2 => hf i (by omega)) (by simpa using hok)
    rw [h]
    rw [show 0 + (c.relayer.max_retries - 1) + 1 = c.relayer.max_retries from by omega]
  · intro hf
    have h := submitAux_all_fail submit c.relayer.retry_delay err (c.relayer.max_retries - 1) 0
      (fun i h1 h2 => hf i (by omega))
    rw [h]
    rw [show (0 : Nat) + (c.relayer.max_retries - 1) = c.relayer.max_retries - 1 from by omega]
    rw [show c.relayer.max_retries - 1 + 1 = c.relayer.max_retries from by omega]

/-- Claim C3, witnessed on cfgW (max_retries = 3, retry_delay = 5) with a
submit oracle failing exactly twice then succeeding, and one failing
always: 3 calls each, delays 5 and 10, success and last-failure error
respectively. -/
theorem C3_submit_retry_witness :
    Relayer.relay_message cfgW ["sui-1", "rooch-1"] 100 opFail2 smW = (Except.ok (), 3, [5, 10]) ∧
    Relayer.relay_message cfgW ["sui-1", "rooch-1"] 100 opFailAll smW =
      (Except.error (Error.Chain "Max retries reached: Chain error: rpc down"), 3, [5, 10]) := by
  constructor
  · have h := (C3_submit_retry cfgW ["sui-1", "rooch-1"] 100 opFail2 smW errW
      (by rfl) (by rfl) (by rfl) (by decide)).2.1
      (fun i hi => by
        have : i < 2 := by simpa [cfgW] using hi
        simp [opFail2, errW, this])
      (by rfl)
    exact h.trans (by rfl)
  · have h := (C3_submit_retry cfgW ["sui-1", "rooch-1"] 100 opFailAll smW errW
      (by rfl) (by rfl) (by rfl) (by decide)).2.2
      (fun i hi => by simp [opFailAll, errW])
    exact h.trans (by rfl)

/-! ## Claim C4 -/

/-- Claim C4: the orchestrator loop keys every message by the hex
encoding of its signature bytes; a message whose key is already in the
dedup set triggers no relay attempt and adds no submit calls, a key is
inserted only when its relay succeeds (a failed relay leaves the set
unchanged, keeping the message eligible later), and presenting two
messages with the same signature in one run with a succeeding adapter
causes exactly one submit_message call. -/
theorem C4_dedup (relayFn : SignedMessage → Except Error Unit × Nat)
    (st : List String × Nat) (m : SignedMessage) :
    (st.1.contains (hexEncode m.signature) = true →
      Relayer.processOne relayFn st m = st) ∧
    (st.1.contains (hexEncode m.signature) = false →
      (∀ e n, relayFn m = (Except.error e, n) →
        Relayer.processOne relayFn st m = (st.1, st.2 + n)) ∧
      (∀ n, relayFn m = (Except.ok (), n) →
        Relayer.processOne relayFn st m = (hexEncode m.signature :: st.1, st.2 + n))) ∧
    Relayer.runCycle relayW [smW, smW2] ([], 0) = ([hexEncode smW.signature], 1) := by
  refine ⟨?_, ?_, ?_⟩
  · intro hin
    have hmem : hexEncode m.signature ∈ st.1 := by simpa using hin
    simp [Relayer.processOne, hmem]
  · intro hout
    have hnot : hexEncode m.signature ∉ st.1 := by simpa using hout
    constructor
    · intro e n hrel
      simp [Relayer.processOne, hnot, hrel]
    · intro n hrel
      simp [Relayer.processOne, hnot, hrel]
  · rfl

/-- Claim C4, witnessed concretely: a message whose key sits in the set is
skipped untouched; a fresh message relayed successfully inserts its key
after one submit call; a fresh message whose relay fails (3 exhausted
submit attempts) leaves the set unchanged. -/
theorem C4_dedup_witness :
    Relayer.processOne relayW (["ab"], 5) smW = (["ab"], 5) ∧
    Relayer.processOne relayW ([], 0) smW = (["ab"], 1) ∧
    Relayer.processOne relayFailW ([], 0) smW = ([], 3) := by
  refine ⟨?_, ?_, ?_⟩
  · exact (C4_dedup relayW (["ab"], 5) smW).1 (by rfl)
  · exact ((C4_dedup relayW ([], 0) smW).2.1 (by rfl)).2 1 (by rfl)
  · exact ((C4_dedup relayFailW ([], 0) smW).2.1 (by rfl)).1
      (Error.Chain "Max retries reached: Chain error: rpc down") 3 (by rfl)

/-! ## Authenticator helper lemmas and instances -/

theorem wsub64_of_le (a b : Nat) (hb : b ≤ a) (ha : a < U64_MOD) : wsub64 a b = a - b := by
  unfold wsub64
  rw [show a + U64_MOD - b = (a - b) + U64_MOD from by omega]
  rw [Nat.add_mod_right]
  exact Nat.mod_eq_of_lt (by omega)

theorem wsub64_self (a : Nat) : wsub64 a a = 0 := by
  unfold wsub64
  rw [show a + U64_MOD - a = U64_MOD from by omega]
  simp

theorem validate_props_ok (v : MessageVerifier) (m : Verify.CrossChainMessage)
    (hs : m.source_chain ∈ v.config.allowed_source_chains)
    (ht : m.target_chain ∈ v.config.allowed_target_chains)
    (hn : v.last_processed_nonce < m.nonce) :
    v.validate_message_properties m = Except.ok () := by
  unfold MessageVerifier.validate_message_properties
  rw [if_neg (not_not_intro hs), if_neg (not_not_intro ht),
    if_neg (by simp only [MIN_NONCE]; omega)]

theorem validate_props_err (v : MessageVerifier) (m : Verify.CrossChainMessage)
    (h : ¬ (m.source_chain ∈ v.config.allowed_source_chains) ∨
         ¬ (m.target_chain ∈ v.config.allowed_target_chains) ∨
         m.nonce ≤ v.last_processed_nonce ∨ m.nonce < MIN_NONCE) :
    ∃ s, v.validate_message_properties m = Except.error (BridgeError.ValidationError s) := by
  unfold MessageVerifier.validate_message_properties
  by_cases hs : m.source_chain ∈ v.config.allowed_source_chains
  · by_cases ht : m.target_chain ∈ v.config.allowed_target_chains
    · have hn : m.nonce ≤ v.last_processed_nonce ∨ m.nonce < MIN_NONCE := by tauto
      exact ⟨"Invalid nonce",
        by rw [if_neg (not_not_intro hs), if_neg (not_not_intro ht), if_pos hn]⟩
    · exact ⟨"Invalid target chain", by rw [if_neg (not_not_intro hs), if_pos ht]⟩
  · exact ⟨"Invalid source chain", by rw [if_pos hs]⟩

/-- A verifier with key 7, the default policy and a fresh watermark. -/
def vW : MessageVerifier :=
  { keyId := 7, config := VerifierConfig.default, last_processed_nonce := 0 }

/-- A verifier with key 7, the default policy and watermark 5. -/
def vW5 : MessageVerifier :=
  { keyId := 7, config := VerifierConfig.default, last_processed_nonce := 5 }

/-- A Sui-to-Rooch transfer message with nonce 1. -/
def mV : Verify.CrossChainMessage :=
  { nonce := 1, source_chain := ChainType.Sui, target_chain := ChainType.Rooch,
    message_type := MessageType.AssetTransfer, sender := [1], payload := [1, 2, 3] }

/-- mV with the stale nonce 3. -/
def mV3 : Verify.CrossChainMessage := { mV with nonce := 3 }

/-- mV signed by vW at time 1000. -/
def smV : Verify.SignedMessage :=
  Verify.SignedMessage.new mV (Verify.Sig.valid 7 mV) 1000

/-! ## Claim C5 -/

/-- Claim C5: for every message whose nonce is strictly above the
watermark and at least MIN_NONCE and whose chains lie in the allowed
sets, sign_message succeeds, and immediately verifying the resulting
SignedMessage with the same authenticator returns true and advances the
watermark to that nonce. -/
theorem C5_roundtrip (v : MessageVerifier) (m : Verify.CrossChainMessage) (now : Nat)
    (hs : m.source_chain ∈ v.config.allowed_source_chains)
    (ht : m.target_chain ∈ v.config.allowed_target_chains)
    (hn : v.last_processed_nonce < m.nonce)
    (_h1 : MIN_NONCE ≤ m.nonce) :
    v.sign_message m now =
      Except.ok (Verify.SignedMessage.new m (Verify.Sig.valid v.keyId m) now) ∧
    v.verify_message now (Verify.SignedMessage.new m (Verify.Sig.valid v.keyId m) now) =
      (Except.ok true, { v with last_processed_nonce := m.nonce }) := by
  have hprops := validate_props_ok v m hs ht hn
  constructor
  · unfold MessageVerifier.sign_message
    rw [hprops]
  · unfold MessageVerifier.verify_message
    dsimp only [Verify.SignedMessage.new]
    rw [wsub64_self]
    rw [if_neg (by omega)]
    simp [hprops]

/-- Claim C5, witnessed: vW signs mV (nonce 1 above watermark 0, chains
allowed) at time 1000 and immediately verifies it, returning true and
advancing the watermark to 1. -/
theorem C5_roundtrip_witness :
    vW.sign_message mV 1000 =
      Except.ok (Verify.SignedMessage.new mV (Verify.Sig.valid 7 mV) 1000) ∧
    vW.verify_message 1000 (Verify.SignedMessage.new mV (Verify.Sig.valid 7 mV) 1000) =
      (Except.ok true, { vW with last_processed_nonce := 1 }) :=
  C5_roundtrip vW mV 1000 (by decide) (by decide) (by decide) (by decide)

/-! ## Claim C6 -/

/-- Claim C6: sign_message rejects with a validation error any message
whose source or target chain is outside the allowed sets, or whose nonce
is at most the watermark, or whose nonce is below MIN_NONCE; it borrows
the verifier immutably, so signing never changes the watermark (the model
returns no verifier from sign_message).  verify_message applies the same
rejections to an unexpired message — in particular re-presenting an
already-verified nonce fails — and leaves the verifier unchanged. -/
theorem C6_reject (v : MessageVerifier) (m : Verify.CrossChainMessage) (now : Nat)
    (sm : Verify.SignedMessage) :
    ((¬ (m.source_chain ∈ v.config.allowed_source_chains) ∨
      ¬ (m.target_chain ∈ v.config.allowed_target_chains) ∨
      m.nonce ≤ v.last_processed_nonce ∨ m.nonce < MIN_NONCE) →
      ∃ s, v.sign_message m now = Except.error (BridgeError.ValidationError s)) ∧
    (wsub64 now sm.timestamp ≤ v.config.max_message_age →
     (¬ (sm.message.source_chain ∈ v.config.allowed_source_chains) ∨
      ¬ (sm.message.target_chain ∈ v.config.allowed_target_chains) ∨
      sm.message.nonce ≤ v.last_processed_nonce ∨ sm.message.nonce < MIN_NONCE) →
      ∃ s, v.verify_message now sm = (Except.error (BridgeError.ValidationError s), v)) := by
  constructor
  · intro h
    obtain ⟨s, hserr⟩ := validate_props_err v m h
    exact ⟨s, by unfold MessageVerifier.sign_message; rw [hserr]⟩
  · intro hage h
    obtain ⟨s, hserr⟩ := validate_props_err v sm.message h
    refine ⟨s, ?_⟩
    unfold MessageVerifier.verify_message
    rw [if_neg (by omega)]
    simp [hserr]

/-- Claim C6, witnessed: vW5 (watermark 5) rejects signing and verifying
mV3 (nonce 3 ≤ 5, fresh timestamp) with a validation error, leaving the
verifier unchanged. -/
theorem C6_reject_witness :
    (∃ s, vW5.sign_message mV3 1000 = Except.error (BridgeError.ValidationError s)) ∧
    (∃ s, vW5.verify_message 1000 (Verify.SignedMessage.new mV3 (Verify.Sig.valid 7 mV3) 1000) =
      (Except.error (BridgeError.ValidationError s), vW5)) := by
  have h := C6_reject vW5 mV3 1000 (Verify.SignedMessage.new mV3 (Verify.Sig.valid 7 mV3) 1000)
  exact ⟨h.1 (by decide), h.2 (by decide) (by decide)⟩

/-! ## Claim C7 -/

/-- Claim C7: the authenticator's verify_message leaves the verifier
unchanged in every outcome other than Ok true and advances the watermark
to the message's nonce exactly when it returns Ok true; and for a
well-signed message with allowed chains and an admissible nonce whose
timestamp does not exceed the clock, the result is Ok false — not an
error — exactly when the age now - timestamp exceeds max_message_age. -/
theorem C7_expiry_watermark (v : MessageVerifier) (now : Nat) (sm : Verify.SignedMessage) :
    ((v.verify_message now sm).1 = Except.ok true →
      (v.verify_message now sm).2 = { v with last_processed_nonce := sm.message.nonce }) ∧
    ((v.verify_message now sm).1 ≠ Except.ok true → (v.verify_message now sm).2 = v) ∧
    (sm.timestamp ≤ now → now < U64_MOD →
     sm.message.source_chain ∈ v.config.allowed_source_chains →
     sm.message.target_chain ∈ v.config.allowed_target_chains →
     v.last_processed_nonce < sm.message.nonce →
     sm.signature = Verify.Sig.valid v.keyId sm.message →
     ((v.verify_message now sm).1 = Except.ok false ↔
       now - sm.timestamp > v.config.max_message_age)) := by
  unfold MessageVerifier.verify_message
  by_cases hage : wsub64 now sm.timestamp > v.config.max_message_age
  · rw [if_pos hage]
    refine ⟨fun h => by simp at h, fun _ => rfl, ?_⟩
    intro ha hb hs ht hn hsig
    rw [wsub64_of_le now sm.timestamp ha hb] at hage
    simp [hage]
  · rw [if_neg hage]
    cases hval : v.validate_message_properties sm.message with
    | error e =>
      refine ⟨fun h => by simp at h, fun _ => rfl, ?_⟩
      intro ha hb hs ht hn hsig
      rw [validate_props_ok v sm.message hs ht hn] at hval
      simp at hval
    | ok u =>
      cases u
      cases hsig0 : sm.signature with
      | malformed =>
        refine ⟨fun h => by simp at h, fun _ => rfl, ?_⟩
        intro ha hb hs ht hn hsig
        simp at hsig
      | valid key hashed =>
        dsimp only
        by_cases hkey : key = v.keyId ∧ hashed = sm.message
        · rw [if_pos hkey]
          refine ⟨fun _ => rfl, fun h => absurd rfl h, ?_⟩
          intro ha hb hs ht hn hsig
          constructor
          · intro hfalse; simp at hfalse
          · intro hgt
            rw [wsub64_of_le now sm.timestamp ha hb] at hage
            omega
        · rw [if_neg hkey]
          refine ⟨fun h => by simp at h, fun _ => rfl, ?_⟩
          intro ha hb hs ht hn hsig
          injection hsig with hk hm
          exact absurd ⟨hk, hm⟩ hkey

/-- Claim C7, witnessed at the expiry boundary with max_message_age 3600:
verifying smV (signed at 1000) at 4599 returns true and advances the
watermark; at 4601 (one second beyond the limit) it returns false and
leaves the verifier unchanged. -/
theorem C7_expiry_watermark_witness :
    (vW.verify_message 4599 smV).2 = { vW with last_processed_nonce := 1 } ∧
    (vW.verify_message 4601 smV).2 = vW ∧
    ((vW.verify_message 4601 smV).1 = Except.ok false) ∧
    ¬ ((vW.verify_message 4599 smV).1 = Except.ok false) := by
  refine ⟨?_, ?_, ?_, ?_⟩
  · exact (C7_expiry_watermark vW 4599 smV).1 (by decide)
  · exact (C7_expiry_watermark vW 4601 smV).2.1 (by decide)
  · exact ((C7_expiry_watermark vW 4601 smV).2.2 (by decide) (by decide) (by decide)
      (by decide) (by decide) (by rfl)).mpr (by decide)
  · intro hfalse
    exact absurd (((C7_expiry_watermark vW 4599 smV).2.2 (by decide) (by decide) (by decide)
      (by decide) (by decide) (by rfl)).mp hfalse) (by decide)

/-! ## Claim C9 -/

/-- Claim C9: for a validly signed message with admissible nonce, allowed
chains and a fresh timestamp, replacing the payload by any different byte
vector before verification makes verify_message return Ok false — never
an error, never a panic — and leaves the verifier unchanged. -/
theorem C9_tamper (v : MessageVerifier) (now ts : Nat) (m : Verify.CrossChainMessage)
    (p2 : Bytes)
    (hp : p2 ≠ m.payload)
    (hage : wsub64 now ts ≤ v.config.max_message_age)
    (hs : m.source_chain ∈ v.config.allowed_source_chains)
    (ht : m.target_chain ∈ v.config.allowed_target_chains)
    (hn : v.last_processed_nonce < m.nonce) :
    v.verify_message now
      { message := { m with payload := p2 }, signature := Verify.Sig.valid v.keyId m,
        timestamp := ts } = (Except.ok false, v) := by
  unfold MessageVerifier.verify_message
  dsimp only
  rw [if_neg (by omega)]
  have hprops := validate_props_ok v { m with payload := p2 } hs ht hn
  simp only [hprops]
  have hm2 : ¬ (m = { m with payload := p2 }) := fun hmm =>
    hp (congrArg Verify.CrossChainMessage.payload hmm).symm
  simp [hm2]

/-- Claim C9, witnessed: tampering smV's payload from the signed bytes to
the single byte 9 makes verification by vW at time 1000 return false with
the verifier unchanged. -/
theorem C9_tamper_witness :
    vW.verify_message 1000
      { message := { mV with payload := [9] }, signature := Verify.Sig.valid 7 mV,
        timestamp := 1000 } = (Except.ok false, vW) :=
  C9_tamper vW 1000 1000 mV [9] (by decide) (by decide) (by decide) (by decide) (by decide)

/-! ## Claim C8 -/

/-- Claim C8: the orchestrator's pre-dispatch business-rule verification
runs exactly these checks in this order with short-circuit on the first
failure — (1) timestamp not in the future, then age at most one hour, (2)
source chain id present in Config, then target chain id present, (3) for
message type transfer, some asset with native_chain equal to the source
and a mapping keyed by the target — and performs no cryptographic
signature verification: its result never depends on the signature
bytes. -/
theorem C8_business_rules :
    (∀ (c : Config) (now : Nat) (sm : SignedMessage),
      (sm.timestamp > now →
        Relayer.verify_message c now sm =
          Except.error (Error.Chain "Message timestamp is in the future")) ∧
      (sm.timestamp ≤ now → now - sm.timestamp > 3600 →
        Relayer.verify_message c now sm =
          Except.error (Error.Chain "Message has expired (older than 1 hour)")) ∧
      (sm.timestamp ≤ now → now - sm.timestamp ≤ 3600 →
        c.chains.any (fun ch => ch.id == sm.message.source_chain) = false →
        Relayer.verify_message c now sm =
          Except.error (Error.Chain ("Invalid source chain: " ++ sm.message.source_chain))) ∧
      (sm.timestamp ≤ now → now - sm.timestamp ≤ 3600 →
        c.chains.any (fun ch => ch.id == sm.message.source_chain) = true →
        c.chains.any (fun ch => ch.id == sm.message.target_chain) = false →
        Relayer.verify_message c now sm =
          Except.error (Error.Chain ("Invalid target chain: " ++ sm.message.target_chain))) ∧
      (sm.timestamp ≤ now → now - sm.timestamp ≤ 3600 →
        c.chains.any (fun ch => ch.id == sm.message.source_chain) = true →
        c.chains.any (fun ch => ch.id == sm.message.target_chain) = true →
        sm.message.message_type = "transfer" →
        c.assets.any (fun asset => asset.native_chain == sm.message.source_chain &&
          containsKey asset.mappings sm.message.target_chain) = false →
        Relayer.verify_message c now sm =
          Except.error (Error.Chain ("Invalid asset transfer mapping from " ++
            sm.message.source_chain ++ " to " ++ sm.message.target_chain))) ∧
      (sm.timestamp ≤ now → now - sm.timestamp ≤ 3600 →
        c.chains.any (fun ch => ch.id == sm.message.source_chain) = true →
        c.chains.any (fun ch => ch.id == sm.message.target_chain) = true →
        (sm.message.message_type ≠ "transfer" ∨
         c.assets.any (fun asset => asset.native_chain == sm.message.source_chain &&
           containsKey asset.mappings sm.message.target_chain) = true) →
        Relayer.verify_message c now sm = Except.ok true)) ∧
    (∀ (c : Config) (now : Nat) (mm : CrossChainMessage) (s1 s2 : Bytes) (ts : Nat),
      Relayer.verify_message c now { message := mm, signature := s1, timestamp := ts } =
      Relayer.verify_message c now { message := mm, signature := s2, timestamp := ts }) := by
  constructor
  · intro c now sm
    refine ⟨?_, ?_, ?_, ?_, ?_, ?_⟩
    · intro hts
      unfold Relayer.verify_message
      rw [if_pos hts]
    · intro hts hold
      unfold Relayer.verify_message
      rw [if_neg (by omega), if_pos hold]
    · intro hts hfresh hsrc
      unfold Relayer.verify_message
      rw [if_neg (by omega), if_neg (by omega)]
      simp [hsrc]
    · intro hts hfresh hsrc htgt
      unfold Relayer.verify_message
      rw [if_neg (by omega), if_neg (by omega)]
      simp [hsrc, htgt]
    · intro hts hfresh hsrc htgt htype hasset
      unfold Relayer.verify_message
      rw [if_neg (by omega), if_neg (by omega)]
      simp [hsrc, htgt, htype, hasset]
    · intro hts hfresh hsrc htgt hok
      unfold Relayer.verify_message
      rw [if_neg (by omega), if_neg (by omega)]
      rcases hok with htype | hasset
      · simp [hsrc, htgt, htype]
      · simp [hsrc, htgt, hasset]
  · intro c now mm s1 s2 ts
    rfl

/-- Claim C8, witnessed on cfgW: a future timestamp errors first, an aged
message errors on expiry, smW passes all checks, and the verdict is
independent of the signature bytes. -/
theorem C8_business_rules_witness :
    Relayer.verify_message cfgW 100 { smW with timestamp := 200 } =
      Except.error (Error.Chain "Message timestamp is in the future") ∧
    Relayer.verify_message cfgW 5000 smW =
      Except.error (Error.Chain "Message has expired (older than 1 hour)") ∧
    Relayer.verify_message cfgW 100 smW = Except.ok true ∧
    Relayer.verify_message cfgW 100 { smW with signature := [1, 2] } =
      Relayer.verify_message cfgW 100 smW := by
  refine ⟨?_, ?_, ?_, ?_⟩
  · exact (C8_business_rules.1 cfgW 100 { smW with timestamp := 200 }).1 (by decide)
  · exact (C8_business_rules.1 cfgW 5000 smW).2.1 (by decide) (by decide)
  · exact (C8_business_rules.1 cfgW 100 smW).2.2.2.2.2 (by decide) (by decide) (by rfl)
      (by rfl) (Or.inr (by rfl))
  · exact C8_business_rules.2 cfgW 100 smW.message [1, 2] [171] 100

/-! ## Claim C10 -/

/-- Claim C10: the orchestrator's business-rule verify_message never
returns Ok false — every rejection on the dispatch path is an error — and
its age subtraction cannot underflow because a future-dated timestamp is
rejected with an error before the age is computed. -/
theorem C10_never_ok_false :
    (∀ (c : Config) (now : Nat) (sm : SignedMessage),
      Relayer.verify_message c now sm ≠ Except.ok false) ∧
    (∀ (c : Config) (now : Nat) (sm : SignedMessage), sm.timestamp > now →
      Relayer.verify_message c now sm =
        Except.error (Error.Chain "Message timestamp is in the future")) := by
  constructor
  · intro c now sm h
    unfold Relayer.verify_message at h
    repeat' split at h
    all_goals simp at h
  · intro c now sm hts
    unfold Relayer.verify_message
    rw [if_pos hts]

/-- Claim C10, witnessed: a future-dated message is rejected with the
future-timestamp error, and smW's verification outcome is not Ok false. -/
theorem C10_never_ok_false_witness :
    Relayer.verify_message cfgW 100 { smW with timestamp := 101 } =
      Except.error (Error.Chain "Message timestamp is in the future") ∧
    Relayer.verify_message cfgW 100 smW ≠ Except.ok false :=
  ⟨C10_never_ok_false.2 cfgW 100 { smW with timestamp := 101 } (by decide),
   C10_never_ok_false.1 cfgW 100 smW⟩

end MoveBridge

